import Mathlib

/-!
Verification development for the Brother label printer handler
(brother_ql_handler.py).  The printing pipeline is shallowly embedded:
PIL images become a term language of the operations the handler applies,
external effects (base64 decoding, image opening, PDF rasterization,
the brother_ql send) become oracle functions in an environment record
that may fail with `Except.error` exactly where the Python code may
raise, and Python dicts become structures with `Option` fields where a
missing key is `none`.  Each top-level entry point additionally returns
the list of backend invocations it performed, so that claims about the
dispatcher being or not being invoked are statable.
-/

/-- One per-page entry of the print_pdf results list. -/
structure PageResult where
  page : Nat
  success : Bool
  error : Option String
deriving Repr, DecidableEq

/-- The result dict returned by the handler entry points.  A key that a
given return site does not mention is `none`. -/
structure PrintResult where
  success : Bool
  message : Option String := none
  error : Option String := none
  error_type : Option String := none
  pages_total : Option Nat := none
  pages_successful : Option Nat := none
  pages_failed : Option Nat := none
  page_results : Option (List PageResult) := none
deriving Repr, DecidableEq

/-- PIL images as the term language of the operations the handler applies.
`renderedText w h m` is the canvas produced by _text_to_image for measured
text size (w, h) and margin m (the canvas is (w + 2m) x (h + 2m) with the
text drawn at offset (m, m)); `rotated` is Image.rotate with expand=True;
`mono` is convert to 1-bit; `margined` is _add_margin. -/
inductive Img where
  | renderedText (textW textH : Nat) (margin : Int)
  | opened (bytes : String)
  | rotated (i : Img) (angle : Int)
  | mono (i : Img)
  | margined (i : Img) (m : Int)
deriving Repr, DecidableEq

/-- The printer configuration dict.  `none` models an absent key.
A present key holding Python None is not modelled separately: the
handler reads every field through dict.get with a default. -/
structure Printer where
  connection : Option String := none
  address : Option String := none
  port : Option Int := none
  model : Option String := none
  label_size : Option String := none

/-- Oracles for the external effects of the pipeline.  Each oracle that
models a region of Python code that may raise returns `Except`; the
error string is the exception message.  `renderPage` collapses
pdf_document[n] / get_pixmap / tobytes / Image.open for one page (the
zoom matrix is determined by dpi, which is passed through).  `pngB64`
is the save-to-PNG-then-base64 round trip performed by print_text. -/
structure Env where
  pdf_support : Bool
  has_brother_ql : Bool
  has_labelprinterkit : Bool
  b64decode : String → Except String String
  imageOpen : String → Except String Img
  pngB64 : Img → String
  measureText : String → Int → Nat × Nat
  pdfB64decode : String → Except String String
  pdfOpen : String → Except String Nat
  renderPage : Int → Nat → Except String Img
  qlSend : Img → String → String → String → String → Bool → Int → Except String Unit

/-- Python truthiness of the address value: False for an absent key and
for the empty string (`if not address:`). -/
def pyStrFalsy (a : Option String) : Bool := a.getD "" = ""

/-- str.startswith, via the character lists (structurally recursive so
that concrete runs reduce). -/
def pyStartsWith (s pre : String) : Bool := pre.toList.isPrefixOf s.toList

/-- Whether a string contains a character (str.__contains__). -/
def pyContainsChar (s : String) (c : Char) : Bool := s.toList.contains c

/-- Replace every non-overlapping occurrence of pat (nonempty) by rep,
scanning left to right; fuel bounds the recursion by the input length. -/
def replaceAux (pat rep : List Char) : Nat → List Char → List Char
  | _, [] => []
  | 0, s => s
  | fuel + 1, c :: rest =>
      if pat.isPrefixOf (c :: rest) then
        rep ++ replaceAux pat rep fuel (List.drop (pat.length - 1) rest)
      else c :: replaceAux pat rep fuel rest

/-- str.replace(pat, rep) for a nonempty pattern. -/
def pyReplace (s pat rep : String) : String :=
  if pat.toList.isEmpty then s
  else String.mk (replaceAux pat.toList rep.toList s.toList.length s.toList)

/-- str.strip() on a character list: drop whitespace at both ends. -/
def pyStrip (cs : List Char) : List Char :=
  ((cs.dropWhile Char.isWhitespace).reverse.dropWhile Char.isWhitespace).reverse

/-- Digits of a nonempty all-digit character list, as a Nat. -/
def digitsToNat (cs : List Char) : Nat :=
  cs.foldl (fun a c => a * 10 + (c.toNat - 48)) 0

/-- Whether a character list is a nonempty run of decimal digits. -/
def allDigits (cs : List Char) : Bool :=
  !cs.isEmpty && cs.all (fun c => c.isDigit)

/-- Python int(s) on a string: optional surrounding whitespace, optional
sign, then decimal digits; anything else raises ValueError (modelled as
`none`).  Underscore digit grouping is not modelled. -/
def pyIntOfString (s : String) : Option Int :=
  let cs := pyStrip s.toList
  match cs with
  | c :: rest =>
      if c = '-' then (if allDigits rest then some (-(digitsToNat rest : Int)) else none)
      else if c = '+' then (if allDigits rest then some ((digitsToNat rest : Int)) else none)
      else if allDigits cs then some ((digitsToNat cs : Int)) else none
  | [] => none

/-- The apostrophe character, used by the Python ValueError message. -/
def pySquote : String := String.singleton (Char.ofNat 39)

/-- The message of the ValueError raised by the Python int() on a bad literal. -/
def pyIntErrMsg (s : String) : String :=
  "invalid literal for int() with base 10: " ++ pySquote ++ s ++ pySquote

/-- host_port.rsplit(c, 1) for a separator known to occur: splits at the
last occurrence of c.  When c does not occur, returns (s, ""). -/
def rsplit1 (s : String) (c : Char) : String × String :=
  let rev := s.toList.reverse
  let after := rev.takeWhile (fun x => x ≠ c)
  match rev.dropWhile (fun x => x ≠ c) with
  | [] => (s, "")
  | _ :: before => (String.mk before.reverse, String.mk after.reverse)

/-- _construct_identifier: maps (connection, address, port) to the
(identifier, backend) pair for the brother_ql library.  `port` is the
possibly-None int argument; `if port:` is Python truthiness, false for
None and for 0. -/
def constructIdentifier (connection address : String) (port : Option Int) :
    String × String :=
  if connection = "network" then
    match port with
    | some n =>
        if n = 0 then ("tcp://" ++ address, "network")
        else ("tcp://" ++ address ++ ":" ++ toString n, "network")
    | none => ("tcp://" ++ address, "network")
  else if connection = "usb" then ("usb://" ++ address, "pyusb")
  else if connection = "serial" then ("file://" ++ address, "linux_kernel")
  else ("tcp://" ++ address, "network")

/-- Error message of _print_raw for a non-TCP identifier. -/
def rawOnlyTcpMsg : String :=
  "Raw printing only supports TCP connections. Install brother_ql for other backends."

/-- The installation-guidance error message _print_raw always ends with
on the TCP path (the three adjacent Python string literals concatenated). -/
def rawInstallMsg : String :=
  "No compatible printer library installed. Please install: pip install brother_ql (for QL models) or pip install labelprinterkit (for PT models)"

/-- The placeholder error message of _print_with_labelprinterkit. -/
def ptStubMsg : String := "labelprinterkit integration not yet implemented"

/-- _print_raw, TCP branch: parse the port after the last colon when one
is present (int(port) may raise ValueError, caught by the enclosing
except and reported as a Raw-print-failed message), and in every
remaining case return the installation-guidance failure. -/
def printRawTcp (host_port : String) : PrintResult :=
  if pyContainsChar host_port ':' then
    match pyIntOfString (rsplit1 host_port ':').2 with
    | none =>
        { success := false
          error := some ("Raw print failed: " ++ pyIntErrMsg (rsplit1 host_port ':').2) }
    | some _ => { success := false, error := some rawInstallMsg }
  else
    { success := false, error := some rawInstallMsg }

/-- _print_raw, head: the non-TCP guard, then the scheme strip and the
TCP branch above. -/
def printRaw (_image : Img) (identifier _model _backend : String) (_cut : Bool) :
    PrintResult :=
  if !(pyStartsWith identifier "tcp://") then
    { success := false, error := some rawOnlyTcpMsg }
  else
    printRawTcp (pyReplace identifier "tcp://" "")

/-- _print_with_brother_ql: convert + send, collapsed into the qlSend
oracle; success yields the success message, an exception yields the
prefixed failure. -/
def printWithBrotherQl (env : Env) (image : Img)
    (identifier model backend label_size : String) (cut : Bool) (rotate : Int) :
    PrintResult :=
  match env.qlSend image identifier model backend label_size cut rotate with
  | Except.ok _ =>
      { success := true, message := some "Print job sent successfully via brother_ql" }
  | Except.error e =>
      { success := false, error := some ("brother_ql print failed: " ++ e) }

/-- _print_with_labelprinterkit: the body is a single return of the
placeholder failure dict; nothing in it can raise. -/
def printWithLabelprinterkit (_image : Img) (_identifier _model _backend : String)
    (_cut : Bool) : PrintResult :=
  { success := false, error := some ptStubMsg }

/-- Which backend function a dispatch invoked. -/
inductive BackendKind where
  | ql
  | lpk
  | raw
deriving Repr, DecidableEq

/-- A record of one backend invocation (for observing dispatcher calls). -/
structure DispatchCall where
  kind : BackendKind
  image : Img
  identifier : String
  model : String
  backend : String
deriving Repr, DecidableEq

/-- The identifier construction and backend selection block shared
verbatim by print_image (lines 157-173) and the print_pdf page loop
(lines 276-293): construct (identifier, backend), test the QL- model
prefix, and invoke the selected backend.  Also returns the invocation
record. -/
def selectAndDispatch (env : Env) (image : Img) (connection address : String)
    (port : Option Int) (model label_size : String) (cut : Bool) (rotate : Int) :
    PrintResult × DispatchCall :=
  let ib := constructIdentifier connection address port
  let identifier := ib.1
  let backend := ib.2
  let is_ql_model := pyStartsWith model "QL-"
  if is_ql_model && env.has_brother_ql then
    (printWithBrotherQl env image identifier model backend label_size cut rotate,
     { kind := BackendKind.ql, image := image, identifier := identifier,
       model := model, backend := backend })
  else if !is_ql_model && env.has_labelprinterkit then
    (printWithLabelprinterkit image identifier model backend cut,
     { kind := BackendKind.lpk, image := image, identifier := identifier,
       model := model, backend := backend })
  else
    (printRaw image identifier model backend cut,
     { kind := BackendKind.raw, image := image, identifier := identifier,
       model := model, backend := backend })

/-- The rotation stage: `if rotate in [90, 180, 270]: image.rotate(rotate, expand=True)`. -/
def rotateStage (image : Img) (rotate : Int) : Img :=
  if rotate = 90 ∨ rotate = 180 ∨ rotate = 270 then Img.rotated image rotate else image

/-- The margin stage: `if margin > 0: self._add_margin(image, margin)`. -/
def marginStage (image : Img) (margin : Int) : Img :=
  if 0 < margin then Img.margined image margin else image

/-- base64.b64decode followed by Image.open, the two raising operations
at the head of the print_image try block. -/
def decodeAndOpen (env : Env) (image_base64 : String) : Except String Img :=
  match env.b64decode image_base64 with
  | Except.error e => Except.error e
  | Except.ok bytes => env.imageOpen bytes

/-- print_image.  Any exception in the try body (decoding or opening;
the later stages are total) becomes the image_print_error failure.
The second component lists the backend invocations performed. -/
def printImage (env : Env) (printer : Printer) (image_base64 : String)
    (rotate : Int) (cut : Bool) (margin : Int) : PrintResult × List DispatchCall :=
  match decodeAndOpen env image_base64 with
  | Except.error e =>
      ({ success := false, error := some ("Failed to print image: " ++ e),
         error_type := some "image_print_error" }, [])
  | Except.ok image0 =>
      let image1 := rotateStage image0 rotate
      let image2 := Img.mono image1
      let image3 := marginStage image2 margin
      let connection := printer.connection.getD "network"
      let address := printer.address
      let port := printer.port.getD 9100
      let model := printer.model.getD "QL-820NWB"
      let label_size := printer.label_size.getD "62"
      if pyStrFalsy address then
        ({ success := false, error := some "Printer address not specified" }, [])
      else
        let rc := selectAndDispatch env image3 connection (address.getD "") (some port)
          model label_size cut rotate
        (rc.1, [rc.2])

/-- _text_to_image: font resolution never raises; the canvas is the
measured text box inflated by 2 x margin in each axis, which raises
the PIL size ValueError when a dimension would be negative. -/
def textToImage (env : Env) (text : String) (font_size : Int) (margin : Int) :
    Except String Img :=
  let wh := env.measureText text font_size
  if (wh.1 : Int) + 2 * margin < 0 ∨ (wh.2 : Int) + 2 * margin < 0 then
    Except.error "Width and height must be >= 0"
  else
    Except.ok (Img.renderedText wh.1 wh.2 margin)

/-- print_text: render the text (margin baked into the canvas), rotate,
round-trip through PNG base64, then delegate to print_image with
rotate=0 and margin=0.  An exception before the delegation becomes the
plain failure dict (note: no error_type key at this return site). -/
def printText (env : Env) (printer : Printer) (text : String) (font_size : Int)
    (rotate : Int) (cut : Bool) (margin : Int) : PrintResult × List DispatchCall :=
  match textToImage env text font_size margin with
  | Except.error e =>
      ({ success := false, error := some ("Failed to print text: " ++ e) }, [])
  | Except.ok image0 =>
      let image1 := rotateStage image0 rotate
      let image_base64 := env.pngB64 image1
      printImage env printer image_base64 0 cut 0

/-- One iteration of the print_pdf page loop: rasterize the page (any
exception in that region is caught per-page and recorded), apply the
transform stages, check the address, dispatch, and build the per-page
entry; its error field is the page_result error when the dispatch
failed and None otherwise. -/
def processPdfPage (env : Env) (printer : Printer) (rotate : Int) (cut : Bool)
    (margin : Int) (dpi : Int) (page_num : Nat) : PageResult × List DispatchCall :=
  match env.renderPage dpi page_num with
  | Except.error e => ({ page := page_num + 1, success := false, error := some e }, [])
  | Except.ok image0 =>
      let image1 := rotateStage image0 rotate
      let image2 := Img.mono image1
      let image3 := marginStage image2 margin
      let connection := printer.connection.getD "network"
      let address := printer.address
      let port := printer.port.getD 9100
      let model := printer.model.getD "QL-820NWB"
      let label_size := printer.label_size.getD "62"
      if pyStrFalsy address then
        ({ page := page_num + 1, success := false,
           error := some "Printer address not specified" }, [])
      else
        let rc := selectAndDispatch env image3 connection (address.getD "") (some port)
          model label_size cut rotate
        ({ page := page_num + 1, success := rc.1.success,
           error := if rc.1.success then none else rc.1.error }, [rc.2])

/-- The loop state of print_pdf: results, successful_pages, failed_pages,
plus the backend invocations performed so far. -/
structure PdfAcc where
  results : List PageResult
  successful_pages : Nat
  failed_pages : Nat
  calls : List DispatchCall
deriving Repr, DecidableEq

/-- One loop step of print_pdf over the accumulator: appends the page
entry and bumps exactly one of the two counters according to that entry
success flag (as every branch of the Python loop body does). -/
def pdfStepAcc (env : Env) (printer : Printer) (rotate : Int) (cut : Bool)
    (margin : Int) (dpi : Int) (acc : PdfAcc) (page_num : Nat) : PdfAcc :=
  let rc := processPdfPage env printer rotate cut margin dpi page_num
  { results := acc.results ++ [rc.1]
    successful_pages := acc.successful_pages + (if rc.1.success then 1 else 0)
    failed_pages := acc.failed_pages + (if rc.1.success then 0 else 1)
    calls := acc.calls ++ rc.2 }

/-- base64.b64decode followed by fitz.open: the document is modelled by
its page count (the only attribute the handler reads besides pages). -/
def pdfDecodeOpen (env : Env) (pdf_base64 : String) : Except String Nat :=
  match env.pdfB64decode pdf_base64 with
  | Except.error e => Except.error e
  | Except.ok bytes => env.pdfOpen bytes

/-- print_pdf: PDF_SUPPORT guard, decode and open (exceptions become the
pdf_processing_error failure), the zero-page guard, then the per-page
loop over range(page_count) and the aggregate result. -/
def printPdf (env : Env) (printer : Printer) (pdf_base64 : String) (rotate : Int)
    (cut : Bool) (margin : Int) (dpi : Int) : PrintResult × List DispatchCall :=
  if !env.pdf_support then
    ({ success := false,
       error := some "PDF support not available. Install PyMuPDF: pip install PyMuPDF",
       error_type := some "pdf_support_missing" }, [])
  else
    match pdfDecodeOpen env pdf_base64 with
    | Except.error e =>
        ({ success := false, error := some ("Failed to process PDF: " ++ e),
           error_type := some "pdf_processing_error" }, [])
    | Except.ok page_count =>
        if page_count = 0 then
          ({ success := false, error := some "PDF has no pages",
             error_type := some "empty_pdf" }, [])
        else
          let acc := (List.range page_count).foldl
            (pdfStepAcc env printer rotate cut margin dpi) ⟨[], 0, 0, []⟩
          let all_success := acc.failed_pages == 0
          ({ success := all_success,
             pages_total := some page_count,
             pages_successful := some acc.successful_pages,
             pages_failed := some acc.failed_pages,
             page_results := some acc.results,
             error := if all_success then none
               else some (toString acc.failed_pages ++ " of " ++ toString page_count
                 ++ " pages failed to print"),
             error_type := if all_success then none
               else some "partial_pdf_print_failure" },
           acc.calls)

/-- Whether an image term contains nonzero margin padding anywhere. -/
def hasPadding : Img → Bool
  | Img.renderedText _ _ m => decide (0 < m)
  | Img.opened _ => false
  | Img.rotated i _ => hasPadding i
  | Img.mono i => hasPadding i
  | Img.margined i m => decide (0 < m) || hasPadding i

/-- Whether some rotation node of an image term has margin padding
strictly below it, i.e. padding that was applied before that rotation. -/
def paddingBeforeRotation : Img → Bool
  | Img.renderedText _ _ _ => false
  | Img.opened _ => false
  | Img.rotated i _ => hasPadding i || paddingBeforeRotation i
  | Img.mono i => paddingBeforeRotation i
  | Img.margined i _ => paddingBeforeRotation i

/-- The per-page entry print_pdf records for page index n. -/
def pdfEntry (env : Env) (printer : Printer) (rotate : Int) (cut : Bool)
    (margin : Int) (dpi : Int) (page_num : Nat) : PageResult :=
  (processPdfPage env printer rotate cut margin dpi page_num).1

/-- The backend invocations print_pdf performs for page index n. -/
def pdfCalls (env : Env) (printer : Printer) (rotate : Int) (cut : Bool)
    (margin : Int) (dpi : Int) (page_num : Nat) : List DispatchCall :=
  (processPdfPage env printer rotate cut margin dpi page_num).2

theorem pdfFold_spec (env : Env) (printer : Printer) (rotate : Int) (cut : Bool)
    (margin : Int) (dpi : Int) (l : List Nat) (acc : PdfAcc) :
    List.foldl (pdfStepAcc env printer rotate cut margin dpi) acc l =
      { results := acc.results ++ l.map (pdfEntry env printer rotate cut margin dpi)
        successful_pages := acc.successful_pages +
          l.countP (fun n => (pdfEntry env printer rotate cut margin dpi n).success)
        failed_pages := acc.failed_pages +
          l.countP (fun n => !(pdfEntry env printer rotate cut margin dpi n).success)
        calls := acc.calls ++ (l.map (pdfCalls env printer rotate cut margin dpi)).flatten } := by
  induction l generalizing acc with
  | nil => simp
  | cons n ns ih =>
      rw [List.foldl_cons, ih]
      simp only [pdfStepAcc, pdfEntry, pdfCalls, List.map_cons, List.countP_cons,
        List.flatten, List.append_assoc, List.singleton_append]
      cases h : (processPdfPage env printer rotate cut margin dpi n).1.success <;>
        simp [h] <;> omega

theorem countP_comp_add {α : Type} (p : α → Bool) (l : List α) :
    l.countP p + l.countP (fun a => !(p a)) = l.length := by
  induction l with
  | nil => rfl
  | cons a t ih =>
      simp only [List.countP_cons, List.length_cons]
      cases h : p a <;> simp [h] <;> omega

theorem pdfEntry_page (env : Env) (printer : Printer) (rotate : Int) (cut : Bool)
    (margin : Int) (dpi : Int) (n : Nat) :
    (pdfEntry env printer rotate cut margin dpi n).page = n + 1 := by
  unfold pdfEntry processPdfPage
  cases h : env.renderPage dpi n with
  | error e => rfl
  | ok i =>
      dsimp only
      split <;> rfl

theorem printPdf_run (env : Env) (printer : Printer) (pdf_base64 : String)
    (rotate : Int) (cut : Bool) (margin : Int) (dpi : Int) (page_count : Nat)
    (hps : env.pdf_support = true)
    (hdec : pdfDecodeOpen env pdf_base64 = Except.ok page_count)
    (hpc : page_count ≠ 0) :
    printPdf env printer pdf_base64 rotate cut margin dpi =
      ({ success :=
           (List.range page_count).countP
             (fun n => !(pdfEntry env printer rotate cut margin dpi n).success) == 0
         pages_total := some page_count
         pages_successful := some ((List.range page_count).countP
           (fun n => (pdfEntry env printer rotate cut margin dpi n).success))
         pages_failed := some ((List.range page_count).countP
           (fun n => !(pdfEntry env printer rotate cut margin dpi n).success))
         page_results := some ((List.range page_count).map
           (pdfEntry env printer rotate cut margin dpi))
         error :=
           if ((List.range page_count).countP
               (fun n => !(pdfEntry env printer rotate cut margin dpi n).success) == 0) then none
           else some (toString ((List.range page_count).countP
               (fun n => !(pdfEntry env printer rotate cut margin dpi n).success))
             ++ " of " ++ toString page_count ++ " pages failed to print")
         error_type :=
           if ((List.range page_count).countP
               (fun n => !(pdfEntry env printer rotate cut margin dpi n).success) == 0) then none
           else some "partial_pdf_print_failure" },
       ((List.range page_count).map (pdfCalls env printer rotate cut margin dpi)).flatten) := by
  unfold printPdf
  rw [hps]
  simp only [Bool.not_true, Bool.false_eq_true, if_false]
  rw [hdec]
  simp only [hpc, if_false, pdfFold_spec]
  simp

/-- A fixed base image for concrete runs. -/
def okImg : Img := Img.opened "bytes"

/-- A fully concrete environment for closed runs: PDF support present,
both drivers present, decoding and the PNG round trip succeed, a
three-page document whose page index 1 fails to rasterize, and a QL
send that succeeds. -/
def cexEnv : Env :=
  { pdf_support := true
    has_brother_ql := true
    has_labelprinterkit := true
    b64decode := fun _ => Except.ok "bytes"
    imageOpen := fun _ => Except.ok okImg
    pngB64 := fun _ => "png64"
    measureText := fun _ _ => (5, 3)
    pdfB64decode := fun _ => Except.ok "pdfbytes"
    pdfOpen := fun _ => Except.ok 3
    renderPage := fun _ n =>
      if n = 1 then Except.error "rasterization failed" else Except.ok okImg
    qlSend := fun _ _ _ _ _ _ _ => Except.ok () }

/-- A concrete printer record: address present, every other key absent
(so connection, port, model and label size take their dict.get defaults). -/
def cexPrinter : Printer := { address := some "10.0.0.5" }

theorem printRawTcp_cases (host_port : String) :
    (printRawTcp host_port).success = false ∧
    ((printRawTcp host_port).error = some rawInstallMsg ∨
     ∃ s, (printRawTcp host_port).error = some ("Raw print failed: " ++ s)) := by
  unfold printRawTcp
  split
  · split
    · exact ⟨rfl, Or.inr ⟨_, rfl⟩⟩
    · exact ⟨rfl, Or.inl rfl⟩
  · exact ⟨rfl, Or.inl rfl⟩

theorem printRaw_cases (image : Img) (identifier model backend : String) (cut : Bool) :
    (printRaw image identifier model backend cut).success = false ∧
    ((printRaw image identifier model backend cut).error = some rawOnlyTcpMsg ∨
     (printRaw image identifier model backend cut).error = some rawInstallMsg ∨
     ∃ s, (printRaw image identifier model backend cut).error =
       some ("Raw print failed: " ++ s)) := by
  unfold printRaw
  split
  · exact ⟨rfl, Or.inl rfl⟩
  · rcases printRawTcp_cases (pyReplace identifier "tcp://" "") with ⟨h1, h2 | ⟨t, h3⟩⟩
    · exact ⟨h1, Or.inr (Or.inl h2)⟩
    · exact ⟨h1, Or.inr (Or.inr ⟨t, h3⟩)⟩


/-- C1: in a multi-page document job (print_pdf), pages are processed
sequentially in ascending page order and an exception or dispatch
failure on one page never aborts the remaining pages: whenever the job
reaches the page loop (decoding succeeded and the page count is
nonzero), the result carries exactly one per-page entry for every page
index in [0, pageCount), numbered 1.. in ascending order, and the
final counts are exactly the counts of successful and of failed
entries — with no assumption on which pages raise or fail to dispatch. -/
theorem C1_printPdf_per_page_isolation (env : Env) (printer : Printer)
    (pdf_base64 : String) (rotate : Int) (cut : Bool) (margin : Int) (dpi : Int)
    (page_count : Nat) (hps : env.pdf_support = true)
    (hdec : pdfDecodeOpen env pdf_base64 = Except.ok page_count)
    (hpc : page_count ≠ 0) :
    ∃ entries : List PageResult,
      (printPdf env printer pdf_base64 rotate cut margin dpi).1.page_results = some entries ∧
      entries.length = page_count ∧
      (∀ i (h : i < entries.length), (entries.get ⟨i, h⟩).page = i + 1) ∧
      (printPdf env printer pdf_base64 rotate cut margin dpi).1.pages_total = some page_count ∧
      (printPdf env printer pdf_base64 rotate cut margin dpi).1.pages_successful =
        some (entries.countP (fun e => e.success)) ∧
      (printPdf env printer pdf_base64 rotate cut margin dpi).1.pages_failed =
        some (entries.countP (fun e => !e.success)) := by
  rw [printPdf_run env printer pdf_base64 rotate cut margin dpi page_count hps hdec hpc]
  refine ⟨_, rfl, by simp, ?_, rfl, ?_, ?_⟩
  · intro i h
    simp [List.get_eq_getElem, pdfEntry_page]
  · rw [List.countP_map]; rfl
  · rw [List.countP_map]; rfl

/-- Witness for C1: the concrete three-page document of cexEnv, whose
page index 1 fails to rasterize. -/
theorem C1_witness :
    ∃ entries : List PageResult,
      (printPdf cexEnv cexPrinter "pdf64" 0 true 10 300).1.page_results = some entries ∧
      entries.length = 3 ∧
      (∀ i (h : i < entries.length), (entries.get ⟨i, h⟩).page = i + 1) ∧
      (printPdf cexEnv cexPrinter "pdf64" 0 true 10 300).1.pages_total = some 3 ∧
      (printPdf cexEnv cexPrinter "pdf64" 0 true 10 300).1.pages_successful =
        some (entries.countP (fun e => e.success)) ∧
      (printPdf cexEnv cexPrinter "pdf64" 0 true 10 300).1.pages_failed =
        some (entries.countP (fun e => !e.success)) :=
  C1_printPdf_per_page_isolation cexEnv cexPrinter "pdf64" 0 true 10 300 3 rfl rfl
    (by decide)

/-- C2: for every multi-page document job that reaches the page loop,
success is true iff pagesFailed = 0, and pagesSuccessful + pagesFailed
= pagesTotal. -/
theorem C2_printPdf_aggregate_law (env : Env) (printer : Printer)
    (pdf_base64 : String) (rotate : Int) (cut : Bool) (margin : Int) (dpi : Int)
    (page_count : Nat) (hps : env.pdf_support = true)
    (hdec : pdfDecodeOpen env pdf_base64 = Except.ok page_count)
    (hpc : page_count ≠ 0) :
    ∃ s f : Nat,
      (printPdf env printer pdf_base64 rotate cut margin dpi).1.pages_successful = some s ∧
      (printPdf env printer pdf_base64 rotate cut margin dpi).1.pages_failed = some f ∧
      (printPdf env printer pdf_base64 rotate cut margin dpi).1.pages_total = some page_count ∧
      s + f = page_count ∧
      ((printPdf env printer pdf_base64 rotate cut margin dpi).1.success = true ↔ f = 0) := by
  rw [printPdf_run env printer pdf_base64 rotate cut margin dpi page_count hps hdec hpc]
  refine ⟨_, _, rfl, rfl, rfl, ?_, ?_⟩
  · rw [countP_comp_add]
    simp
  · simp

/-- Witness for C2 at the concrete three-page run. -/
theorem C2_witness :
    ∃ s f : Nat,
      (printPdf cexEnv cexPrinter "pdf64" 0 true 10 300).1.pages_successful = some s ∧
      (printPdf cexEnv cexPrinter "pdf64" 0 true 10 300).1.pages_failed = some f ∧
      (printPdf cexEnv cexPrinter "pdf64" 0 true 10 300).1.pages_total = some 3 ∧
      s + f = 3 ∧
      ((printPdf cexEnv cexPrinter "pdf64" 0 true 10 300).1.success = true ↔ f = 0) :=
  C2_printPdf_aggregate_law cexEnv cexPrinter "pdf64" 0 true 10 300 3 rfl rfl (by decide)

/-- Environment whose document opens with zero pages. -/
def emptyPdfEnv : Env := { cexEnv with pdfOpen := fun _ => Except.ok 0 }

/-- C3 counterexample: on a zero-page document the handler returns
error_type "empty_pdf", not the claimed "empty_document"; the claimed
errorType value does not occur. -/
theorem C3_counterexample :
    (printPdf emptyPdfEnv cexPrinter "pdf64" 0 true 10 300).1.error_type = some "empty_pdf" ∧
    (printPdf emptyPdfEnv cexPrinter "pdf64" 0 true 10 300).1.error_type ≠
      some "empty_document" := by
  exact ⟨rfl, by decide⟩

/-- C3 amended: a document job whose document has zero pages terminates
without ever invoking a backend (the dispatch-call list is empty),
returning a failed result whose error_type is "empty_pdf" (the tag used by
the code; the claim said "empty_document"). -/
theorem C3_empty_document_fail_fast (env : Env) (printer : Printer)
    (pdf_base64 : String) (rotate : Int) (cut : Bool) (margin : Int) (dpi : Int)
    (hps : env.pdf_support = true)
    (hdec : pdfDecodeOpen env pdf_base64 = Except.ok 0) :
    printPdf env printer pdf_base64 rotate cut margin dpi =
      ({ success := false, error := some "PDF has no pages",
         error_type := some "empty_pdf" }, []) := by
  unfold printPdf
  rw [hps]
  simp only [Bool.not_true, Bool.false_eq_true, if_false]
  rw [hdec]
  rfl

/-- Witness for C3 at the concrete zero-page environment. -/
theorem C3_witness :
    printPdf emptyPdfEnv cexPrinter "pdf64" 0 true 10 300 =
      ({ success := false, error := some "PDF has no pages",
         error_type := some "empty_pdf" }, []) :=
  C3_empty_document_fail_fast emptyPdfEnv cexPrinter "pdf64" 0 true 10 300 rfl rfl

/-- C4 counterexample: in the concrete three-page run with one failed
page, the aggregate error_type is "partial_pdf_print_failure", not the
claimed "partial_document_print_failure". -/
theorem C4_counterexample :
    (printPdf cexEnv cexPrinter "pdf64" 0 true 10 300).1.pages_failed = some 1 ∧
    (printPdf cexEnv cexPrinter "pdf64" 0 true 10 300).1.error_type =
      some "partial_pdf_print_failure" ∧
    (printPdf cexEnv cexPrinter "pdf64" 0 true 10 300).1.error_type ≠
      some "partial_document_print_failure" := by
  refine ⟨by decide, by decide, by decide⟩

/-- C4 amended: for every multi-page document job that reaches the page
loop, if at least one page failed the aggregate has success = false,
error_type = "partial_pdf_print_failure" (the tag of the code; the claim
said "partial_document_print_failure") and an error message giving the
failed/total page counts; when no page failed, success = true and
error and error_type are not populated. -/
theorem C4_failed_pages_aggregate (env : Env) (printer : Printer)
    (pdf_base64 : String) (rotate : Int) (cut : Bool) (margin : Int) (dpi : Int)
    (page_count : Nat) (hps : env.pdf_support = true)
    (hdec : pdfDecodeOpen env pdf_base64 = Except.ok page_count)
    (hpc : page_count ≠ 0) :
    ∃ f : Nat,
      (printPdf env printer pdf_base64 rotate cut margin dpi).1.pages_failed = some f ∧
      (f ≠ 0 →
        (printPdf env printer pdf_base64 rotate cut margin dpi).1.success = false ∧
        (printPdf env printer pdf_base64 rotate cut margin dpi).1.error_type =
          some "partial_pdf_print_failure" ∧
        (printPdf env printer pdf_base64 rotate cut margin dpi).1.error =
          some (toString f ++ " of " ++ toString page_count ++ " pages failed to print")) ∧
      (f = 0 →
        (printPdf env printer pdf_base64 rotate cut margin dpi).1.success = true ∧
        (printPdf env printer pdf_base64 rotate cut margin dpi).1.error = none ∧
        (printPdf env printer pdf_base64 rotate cut margin dpi).1.error_type = none) := by
  rw [printPdf_run env printer pdf_base64 rotate cut margin dpi page_count hps hdec hpc]
  refine ⟨_, rfl, ?_, ?_⟩
  · intro h
    simp [h]
  · intro h
    simp [h]

/-- Witness for C4 at the concrete three-page run with one failed page. -/
theorem C4_witness :
    ∃ f : Nat,
      (printPdf cexEnv cexPrinter "pdf64" 0 true 10 300).1.pages_failed = some f ∧
      (f ≠ 0 →
        (printPdf cexEnv cexPrinter "pdf64" 0 true 10 300).1.success = false ∧
        (printPdf cexEnv cexPrinter "pdf64" 0 true 10 300).1.error_type =
          some "partial_pdf_print_failure" ∧
        (printPdf cexEnv cexPrinter "pdf64" 0 true 10 300).1.error =
          some (toString f ++ " of " ++ toString (3 : Nat) ++ " pages failed to print")) ∧
      (f = 0 →
        (printPdf cexEnv cexPrinter "pdf64" 0 true 10 300).1.success = true ∧
        (printPdf cexEnv cexPrinter "pdf64" 0 true 10 300).1.error = none ∧
        (printPdf cexEnv cexPrinter "pdf64" 0 true 10 300).1.error_type = none) :=
  C4_failed_pages_aggregate cexEnv cexPrinter "pdf64" 0 true 10 300 3 rfl rfl (by decide)

/-- Environment in which both single-unit renderers raise: base64
decoding of an image payload throws, and (with a negative margin) text
canvas creation throws the PIL size error. -/
def failEnv : Env :=
  { cexEnv with b64decode := fun _ => Except.error "Invalid base64-encoded string" }

/-- C5 counterexample: an exception inside print_text (here: the PIL
ValueError for a negative canvas size caused by margin = -10) is caught
and converted to a failure dict that carries success and error but NO
errorType key, contradicting the claimed result shape
(success, error, errorType). -/
theorem C5_counterexample :
    (printText cexEnv cexPrinter "hi" 24 0 true (-10)).1.success = false ∧
    (printText cexEnv cexPrinter "hi" 24 0 true (-10)).1.error =
      some "Failed to print text: Width and height must be >= 0" ∧
    (printText cexEnv cexPrinter "hi" 24 0 true (-10)).1.error_type = none := by
  refine ⟨by decide, by decide, by decide⟩

/-- C5 amended: for every single-unit job, an exception raised in the
job body is caught and converted into a structured failure result and
never propagates (both entry points are total and return a result in
the exceptional case); the print_image handler populates
error_type = "image_print_error", while the print_text handler returns
only success = false and the prefixed error, with no errorType. -/
theorem C5_single_unit_exceptions_caught (env : Env) (printer : Printer)
    (text : String) (font_size : Int) (image_base64 : String)
    (rotate : Int) (cut : Bool) (margin : Int) (e1 e2 : String)
    (ht : textToImage env text font_size margin = Except.error e1)
    (hi : decodeAndOpen env image_base64 = Except.error e2) :
    printText env printer text font_size rotate cut margin =
      ({ success := false, error := some ("Failed to print text: " ++ e1) }, []) ∧
    printImage env printer image_base64 rotate cut margin =
      ({ success := false, error := some ("Failed to print image: " ++ e2),
         error_type := some "image_print_error" }, []) := by
  constructor
  · unfold printText
    rw [ht]
  · unfold printImage
    rw [hi]

/-- Witness for C5 at the concrete failing environment. -/
theorem C5_witness :
    printText failEnv cexPrinter "hi" 24 0 true (-10) =
      ({ success := false,
         error := some ("Failed to print text: " ++ "Width and height must be >= 0") }, []) ∧
    printImage failEnv cexPrinter "img64" 0 true 10 =
      ({ success := false,
         error := some ("Failed to print image: " ++ "Invalid base64-encoded string"),
         error_type := some "image_print_error" }, []) :=
  C5_single_unit_exceptions_caught failEnv cexPrinter "hi" 24 "img64" 0 true (-10)
    "Width and height must be >= 0" "Invalid base64-encoded string" rfl rfl

/-- C6 counterexample: a present port of 0 is falsy in Python, so the
identifier omits it even though the port is not absent; the claimed
identifier tcp://X:0 is not produced. -/
theorem C6_counterexample :
    constructIdentifier "network" "X" (some 0) = ("tcp://X", "network") ∧
    (("tcp://X" : String), ("network" : String)) ≠ ("tcp://X:0", "network") := by
  refine ⟨by decide, by decide⟩

/-- C6 amended: the Connection Identifier Builder is a pure total
function mapping network to tcp://address:port with the port omitted
when it is absent OR zero (Python int truthiness), usb to
usb://address with backend pyusb, serial to file://address with
backend linux_kernel, and any other connection type (e.g. bluetooth)
to tcp://address with backend network. -/
theorem C6_constructIdentifier_mapping (address : String) (port : Option Int) :
    (∀ n : Int, n ≠ 0 →
      constructIdentifier "network" address (some n) =
        ("tcp://" ++ address ++ ":" ++ toString n, "network")) ∧
    constructIdentifier "network" address none = ("tcp://" ++ address, "network") ∧
    constructIdentifier "network" address (some 0) = ("tcp://" ++ address, "network") ∧
    constructIdentifier "usb" address port = ("usb://" ++ address, "pyusb") ∧
    constructIdentifier "serial" address port = ("file://" ++ address, "linux_kernel") ∧
    (∀ conn : String, conn ≠ "network" → conn ≠ "usb" → conn ≠ "serial" →
      constructIdentifier conn address port = ("tcp://" ++ address, "network")) := by
  refine ⟨?_, rfl, rfl, rfl, rfl, ?_⟩
  · intro n hn
    simp [constructIdentifier, hn]
  · intro conn h1 h2 h3
    unfold constructIdentifier
    rw [if_neg h1, if_neg h2, if_neg h3]

/-- Witness for C6, including the bluetooth instance from the spec. -/
theorem C6_witness :
    constructIdentifier "network" "X" (some 9100) = ("tcp://X:9100", "network") ∧
    constructIdentifier "bluetooth" "X" none = ("tcp://X", "network") := by
  have h := C6_constructIdentifier_mapping "X" (none : Option Int)
  exact ⟨h.1 9100 (by decide), h.2.2.2.2.2 "bluetooth" (by decide) (by decide) (by decide)⟩

/-- Environment with the PT-family driver (labelprinterkit) absent. -/
def noLpkEnv : Env := { cexEnv with has_labelprinterkit := false }

/-- C7 counterexample: a dispatch of the PT model "PT-P710BT" with the
PT-family driver absent fails, but with the raw-fallback message, not
the PT-integration-not-implemented message — so the claimed message
does not appear "regardless of which driver libraries are present". -/
theorem C7_counterexample :
    (selectAndDispatch noLpkEnv okImg "network" "10.0.0.5" (some 9100)
      "PT-P710BT" "62" true 0).1.success = false ∧
    (selectAndDispatch noLpkEnv okImg "network" "10.0.0.5" (some 9100)
      "PT-P710BT" "62" true 0).1.error ≠ some ptStubMsg := by
  refine ⟨by decide, by decide⟩

/-- C7 amended: every dispatch of a non-QL-prefixed model (in
particular every PT-family model such as PT-P710BT) fails, regardless
of which driver libraries are present; the error is the
PT-integration-not-implemented message exactly when the PT-family
driver is available, and otherwise it is the always-failing raw
fallback message. -/
theorem C7_pt_dispatch_always_fails (env : Env) (image : Img)
    (connection address : String) (port : Option Int) (model label_size : String)
    (cut : Bool) (rotate : Int) (hm : pyStartsWith model "QL-" = false) :
    (selectAndDispatch env image connection address port model label_size cut
      rotate).1.success = false ∧
    (env.has_labelprinterkit = true →
      (selectAndDispatch env image connection address port model label_size cut
        rotate).1.error = some ptStubMsg) ∧
    (env.has_labelprinterkit = false →
      (selectAndDispatch env image connection address port model label_size cut
        rotate).1.error = some rawOnlyTcpMsg ∨
      (selectAndDispatch env image connection address port model label_size cut
        rotate).1.error = some rawInstallMsg ∨
      ∃ s, (selectAndDispatch env image connection address port model label_size cut
        rotate).1.error = some ("Raw print failed: " ++ s)) := by
  unfold selectAndDispatch
  cases hl : env.has_labelprinterkit <;>
    simp only [hm, hl, Bool.false_and, Bool.not_false, Bool.true_and, Bool.and_false,
      Bool.and_true, Bool.false_eq_true, if_false, if_true]
  · rcases printRaw_cases image
        (constructIdentifier connection address port).1 model
        (constructIdentifier connection address port).2 cut with ⟨h1, h2⟩
    exact ⟨h1, False.elim, fun _ => h2⟩
  · exact ⟨rfl, fun _ => rfl, fun h => nomatch h⟩

/-- Witness for C7 with the PT-family driver present. -/
theorem C7_witness :
    (selectAndDispatch cexEnv okImg "network" "10.0.0.5" (some 9100)
      "PT-P710BT" "62" true 0).1.success = false ∧
    (selectAndDispatch cexEnv okImg "network" "10.0.0.5" (some 9100)
      "PT-P710BT" "62" true 0).1.error = some ptStubMsg := by
  have h := C7_pt_dispatch_always_fails cexEnv okImg "network" "10.0.0.5" (some 9100)
    "PT-P710BT" "62" true 0 (by decide)
  exact ⟨h.1, h.2.1 rfl⟩

theorem printRawTcp_spec (host_port : String) :
    (pyContainsChar host_port ':' = false →
      (printRawTcp host_port).error = some rawInstallMsg) ∧
    (∀ n, pyIntOfString (rsplit1 host_port ':').2 = some n →
      (printRawTcp host_port).error = some rawInstallMsg) ∧
    (pyContainsChar host_port ':' = true →
     pyIntOfString (rsplit1 host_port ':').2 = none →
      (printRawTcp host_port).error =
        some ("Raw print failed: " ++ pyIntErrMsg (rsplit1 host_port ':').2)) := by
  unfold printRawTcp
  cases hc : pyContainsChar host_port ':' <;>
    cases hn : pyIntOfString (rsplit1 host_port ':').2 <;>
      simp [hc, hn]

/-- C8 counterexample: for the tcp:// identifier "tcp://h:x" (whose
port segment is not an integer) _print_raw still fails, but with the
caught-ValueError message, not the claimed driver-installation
guidance. -/
theorem C8_counterexample :
    pyStartsWith "tcp://h:x" "tcp://" = true ∧
    (printRaw okImg "tcp://h:x" "QL-820NWB" "network" true).success = false ∧
    (printRaw okImg "tcp://h:x" "QL-820NWB" "network" true).error ≠ some rawInstallMsg ∧
    (printRaw okImg "tcp://h:x" "QL-820NWB" "network" true).error =
      some ("Raw print failed: " ++ pyIntErrMsg "x") := by
  refine ⟨by decide, by decide, by decide, by decide⟩

/-- C8 amended: _print_raw never reports success.  A non-tcp://
identifier fails immediately with the raw-printing-supports-only-TCP
message; a tcp:// identifier whose port segment is absent or parses as
an integer terminates with the driver-installation guidance; a tcp://
identifier whose port segment fails int() terminates with the caught
ValueError reported as a Raw-print-failed message. -/
theorem C8_printRaw_spec (image : Img) (identifier model backend : String) (cut : Bool) :
    (printRaw image identifier model backend cut).success = false ∧
    (pyStartsWith identifier "tcp://" = false →
      (printRaw image identifier model backend cut).error = some rawOnlyTcpMsg) ∧
    (pyStartsWith identifier "tcp://" = true →
      (pyContainsChar (pyReplace identifier "tcp://" "") ':' = false →
        (printRaw image identifier model backend cut).error = some rawInstallMsg) ∧
      (∀ n, pyIntOfString (rsplit1 (pyReplace identifier "tcp://" "") ':').2 = some n →
        (printRaw image identifier model backend cut).error = some rawInstallMsg) ∧
      (pyContainsChar (pyReplace identifier "tcp://" "") ':' = true →
       pyIntOfString (rsplit1 (pyReplace identifier "tcp://" "") ':').2 = none →
        (printRaw image identifier model backend cut).error =
          some ("Raw print failed: " ++
            pyIntErrMsg (rsplit1 (pyReplace identifier "tcp://" "") ':').2))) := by
  have hs := (printRaw_cases image identifier model backend cut).1
  refine ⟨hs, ?_, ?_⟩ <;> unfold printRaw
  · intro h
    simp [h]
  · intro h
    simp only [h, Bool.not_true, Bool.false_eq_true, if_false]
    exact printRawTcp_spec (pyReplace identifier "tcp://" "")

/-- Witness for C8 at a well-formed tcp identifier and at a usb one. -/
theorem C8_witness :
    (printRaw okImg "tcp://10.0.0.5:9100" "QL-820NWB" "network" true).success = false ∧
    (printRaw okImg "tcp://10.0.0.5:9100" "QL-820NWB" "network" true).error =
      some rawInstallMsg ∧
    (printRaw okImg "usb://0x04f9" "QL-820NWB" "pyusb" true).error = some rawOnlyTcpMsg := by
  have h1 := C8_printRaw_spec okImg "tcp://10.0.0.5:9100" "QL-820NWB" "network" true
  have h2 := C8_printRaw_spec okImg "usb://0x04f9" "QL-820NWB" "pyusb" true
  exact ⟨h1.1, (h1.2.2 (by decide)).2.1 9100 (by decide), h2.2.1 (by decide)⟩

theorem rotateStage_rot (image : Img) (rotate : Int)
    (hr : rotate = 90 ∨ rotate = 180 ∨ rotate = 270) :
    rotateStage image rotate = Img.rotated image rotate := by
  unfold rotateStage
  rw [if_pos hr]

theorem rotateStage_zero (image : Img) : rotateStage image 0 = image := by
  unfold rotateStage
  rw [if_neg (by decide)]

theorem marginStage_pos (image : Img) (margin : Int) (hm : 0 < margin) :
    marginStage image margin = Img.margined image margin := by
  unfold marginStage
  rw [if_pos hm]

theorem marginStage_zero (image : Img) : marginStage image 0 = image := by
  unfold marginStage
  rw [if_neg (by decide)]

theorem selectAndDispatch_call_image (env : Env) (image : Img)
    (connection address : String) (port : Option Int) (model label_size : String)
    (cut : Bool) (rotate : Int) :
    (selectAndDispatch env image connection address port model label_size cut
      rotate).2.image = image := by
  simp only [selectAndDispatch]
  split
  · rfl
  · split <;> rfl

theorem printImage_calls (env : Env) (printer : Printer) (image_base64 : String)
    (rotate : Int) (cut : Bool) (margin : Int) (base : Img)
    (hd : decodeAndOpen env image_base64 = Except.ok base) :
    (printImage env printer image_base64 rotate cut margin).2 =
      if pyStrFalsy printer.address then [] else
        [(selectAndDispatch env (marginStage (Img.mono (rotateStage base rotate)) margin)
           (printer.connection.getD "network") (printer.address.getD "")
           (some (printer.port.getD 9100)) (printer.model.getD "QL-820NWB")
           (printer.label_size.getD "62") cut rotate).2] := by
  unfold printImage
  rw [hd]
  dsimp only
  split <;> rfl

theorem processPdfPage_calls (env : Env) (printer : Printer) (rotate : Int)
    (cut : Bool) (margin : Int) (dpi : Int) (page_num : Nat) (base : Img)
    (hd : env.renderPage dpi page_num = Except.ok base) :
    (processPdfPage env printer rotate cut margin dpi page_num).2 =
      if pyStrFalsy printer.address then [] else
        [(selectAndDispatch env (marginStage (Img.mono (rotateStage base rotate)) margin)
           (printer.connection.getD "network") (printer.address.getD "")
           (some (printer.port.getD 9100)) (printer.model.getD "QL-820NWB")
           (printer.label_size.getD "62") cut rotate).2] := by
  unfold processPdfPage
  rw [hd]
  dsimp only
  split <;> rfl

/-- C9 amended: with rotation in {90,180,270} and margin > 0, the image
path and each document-page path apply the fixed order
rotate -> binarize -> margin: every bitmap handed to a backend is
margined(mono(rotated(base))).  The text path differs: the renderer
bakes the margin into the canvas BEFORE rotation and the delegated
print_image call receives margin = 0, so the dispatched bitmap is
mono(rotated(renderedText w h margin)) — padding below the rotation and
no padding applied after it (hypotheses: the text measurement and the
PNG round trip performed between print_text and print_image). -/
theorem C9_transform_order (env : Env) (printer : Printer) (rotate margin : Int)
    (cut : Bool) (hr : rotate = 90 ∨ rotate = 180 ∨ rotate = 270) (hm : 0 < margin) :
    (∀ image_base64 base, decodeAndOpen env image_base64 = Except.ok base →
      ∀ c, c ∈ (printImage env printer image_base64 rotate cut margin).2 →
        c.image = Img.margined (Img.mono (Img.rotated base rotate)) margin) ∧
    (∀ dpi page_num base, env.renderPage dpi page_num = Except.ok base →
      ∀ c, c ∈ (processPdfPage env printer rotate cut margin dpi page_num).2 →
        c.image = Img.margined (Img.mono (Img.rotated base rotate)) margin) ∧
    (∀ text font_size w h bytes,
      env.measureText text font_size = (w, h) →
      env.b64decode (env.pngB64 (Img.rotated (Img.renderedText w h margin) rotate)) =
        Except.ok bytes →
      env.imageOpen bytes = Except.ok (Img.rotated (Img.renderedText w h margin) rotate) →
      ∀ c, c ∈ (printText env printer text font_size rotate cut margin).2 →
        c.image = Img.mono (Img.rotated (Img.renderedText w h margin) rotate) ∧
        paddingBeforeRotation c.image = true) := by
  refine ⟨?_, ?_, ?_⟩
  · intro image_base64 base hd c hc
    rw [printImage_calls env printer image_base64 rotate cut margin base hd] at hc
    split at hc
    · exact absurd hc (List.not_mem_nil c)
    · rw [List.mem_singleton] at hc
      subst hc
      rw [selectAndDispatch_call_image, rotateStage_rot base rotate hr,
        marginStage_pos _ margin hm]
  · intro dpi page_num base hd c hc
    rw [processPdfPage_calls env printer rotate cut margin dpi page_num base hd] at hc
    split at hc
    · exact absurd hc (List.not_mem_nil c)
    · rw [List.mem_singleton] at hc
      subst hc
      rw [selectAndDispatch_call_image, rotateStage_rot base rotate hr,
        marginStage_pos _ margin hm]
  · intro text font_size w h bytes ht hb ho c hc
    have htt : textToImage env text font_size margin =
        Except.ok (Img.renderedText w h margin) := by
      unfold textToImage
      rw [ht]
      rw [if_neg]
      push_neg
      constructor <;> omega
    unfold printText at hc
    rw [htt] at hc
    dsimp only at hc
    rw [rotateStage_rot _ rotate hr] at hc
    have hd : decodeAndOpen env
        (env.pngB64 (Img.rotated (Img.renderedText w h margin) rotate)) =
        Except.ok (Img.rotated (Img.renderedText w h margin) rotate) := by
      unfold decodeAndOpen
      rw [hb]
      exact ho
    rw [printImage_calls env printer _ 0 cut 0 _ hd] at hc
    split at hc
    · exact absurd hc (List.not_mem_nil c)
    · rw [List.mem_singleton] at hc
      subst hc
      rw [selectAndDispatch_call_image, rotateStage_zero, marginStage_zero]
      refine ⟨rfl, ?_⟩
      simp [paddingBeforeRotation, hasPadding, hm]

/-- Environment modelling a faithful PNG round trip for the text-path
run below: reopening the saved PNG yields the same bitmap print_text
saved, namely the rotation of the margin-10 text canvas. -/
def textPathEnv : Env :=
  { cexEnv with imageOpen := fun _ => Except.ok (Img.rotated (Img.renderedText 5 3 10) 90) }

/-- C9 counterexample: in the text path with rotation 90 and margin 10,
the single bitmap handed to the backend is
mono(rotated(renderedText 5 3 10)) — its margin-10 padding sits BELOW
the rotation (it was baked into the canvas before rotating) and no
padding is applied after the rotation, contradicting the claim that in
every print path margin padding is added only after the rotation step. -/
theorem C9_counterexample :
    ((printText textPathEnv cexPrinter "hi" 24 90 true 10).2.map (fun c => c.image)) =
      [Img.mono (Img.rotated (Img.renderedText 5 3 10) 90)] ∧
    paddingBeforeRotation (Img.mono (Img.rotated (Img.renderedText 5 3 10) 90)) = true := by
  refine ⟨by decide, by decide⟩

/-- Fallback dispatch record for reading the head of a call list. -/
def c9fallback : DispatchCall :=
  { kind := BackendKind.raw, image := okImg, identifier := "", model := "", backend := "" }

/-- The single dispatch performed by the concrete image-path run. -/
def c9call : DispatchCall :=
  ((printImage textPathEnv cexPrinter "img64" 90 true 10).2).headD c9fallback

/-- Witness for C9 at the concrete image-path run. -/
theorem C9_witness :
    c9call.image =
      Img.margined (Img.mono (Img.rotated (Img.rotated (Img.renderedText 5 3 10) 90) 90)) 10 :=
  (C9_transform_order textPathEnv cexPrinter 90 10 true (Or.inl rfl) (by decide)).1
    "img64" (Img.rotated (Img.renderedText 5 3 10) 90) rfl c9call (by decide)

theorem processPdfPage_no_address (env : Env) (printer : Printer) (rotate : Int)
    (cut : Bool) (margin : Int) (dpi : Int) (n : Nat) (base : Img)
    (ha : pyStrFalsy printer.address = true)
    (h : env.renderPage dpi n = Except.ok base) :
    processPdfPage env printer rotate cut margin dpi n =
      ({ page := n + 1, success := false,
         error := some "Printer address not specified" }, []) := by
  unfold processPdfPage
  rw [h]
  dsimp only
  rw [if_pos ha]

theorem processPdfPage_calls_nil_no_address (env : Env) (printer : Printer)
    (rotate : Int) (cut : Bool) (margin : Int) (dpi : Int) (n : Nat)
    (ha : pyStrFalsy printer.address = true) :
    (processPdfPage env printer rotate cut margin dpi n).2 = [] := by
  unfold processPdfPage
  cases h : env.renderPage dpi n with
  | error e => rfl
  | ok base =>
      dsimp only
      rw [if_pos ha]

/-- C10: with no (or an empty) printer address, print_image returns the
plain failure dict { success: false, error: "Printer address not
specified" } and performs no backend invocation; print_pdf performs no
backend invocation either, and (when every page rasterizes) records
that same error as a failed per-page entry for every page while
iterating to the end, so pagesFailed equals the page count. -/
theorem C10_missing_address (env : Env) (printer : Printer)
    (image_base64 pdf_base64 : String) (rotate : Int) (cut : Bool) (margin : Int)
    (dpi : Int) (page_count : Nat) (base : Img)
    (ha : pyStrFalsy printer.address = true)
    (hio : decodeAndOpen env image_base64 = Except.ok base)
    (hps : env.pdf_support = true)
    (hdec : pdfDecodeOpen env pdf_base64 = Except.ok page_count)
    (hpc : page_count ≠ 0)
    (hrp : ∀ n, n < page_count → ∃ i, env.renderPage dpi n = Except.ok i) :
    printImage env printer image_base64 rotate cut margin =
      ({ success := false, error := some "Printer address not specified" }, []) ∧
    (printPdf env printer pdf_base64 rotate cut margin dpi).2 = [] ∧
    (printPdf env printer pdf_base64 rotate cut margin dpi).1.page_results =
      some ((List.range page_count).map (fun n =>
        { page := n + 1, success := false,
          error := some "Printer address not specified" })) ∧
    (printPdf env printer pdf_base64 rotate cut margin dpi).1.pages_failed =
      some page_count := by
  refine ⟨?_, ?_, ?_, ?_⟩
  · unfold printImage
    rw [hio]
    dsimp only
    rw [if_pos ha]
  · rw [printPdf_run env printer pdf_base64 rotate cut margin dpi page_count hps hdec hpc]
    dsimp only
    rw [List.flatten_eq_nil_iff]
    intro l hl
    rw [List.mem_map] at hl
    obtain ⟨n, _, rfl⟩ := hl
    exact processPdfPage_calls_nil_no_address env printer rotate cut margin dpi n ha
  · rw [printPdf_run env printer pdf_base64 rotate cut margin dpi page_count hps hdec hpc]
    dsimp only
    congr 1
    apply List.map_congr_left
    intro n hn
    rw [List.mem_range] at hn
    obtain ⟨i, hi⟩ := hrp n hn
    unfold pdfEntry
    rw [processPdfPage_no_address env printer rotate cut margin dpi n i ha hi]
  · rw [printPdf_run env printer pdf_base64 rotate cut margin dpi page_count hps hdec hpc]
    dsimp only
    congr 1
    have hall : ∀ n ∈ List.range page_count,
        (!(pdfEntry env printer rotate cut margin dpi n).success) = true := by
      intro n hn
      rw [List.mem_range] at hn
      obtain ⟨i, hi⟩ := hrp n hn
      unfold pdfEntry
      rw [processPdfPage_no_address env printer rotate cut margin dpi n i ha hi]
      rfl
    rw [List.countP_eq_length.mpr hall, List.length_range]

/-- Environment for the C10 witness: like cexEnv but every page
rasterizes. -/
def noAddrEnv : Env := { cexEnv with renderPage := fun _ _ => Except.ok okImg }

/-- Printer record with no address key. -/
def noAddrPrinter : Printer := {}

/-- Witness for C10 at a concrete address-less three-page run. -/
theorem C10_witness :
    printImage noAddrEnv noAddrPrinter "img64" 0 true 10 =
      ({ success := false, error := some "Printer address not specified" }, []) ∧
    (printPdf noAddrEnv noAddrPrinter "pdf64" 0 true 10 300).2 = [] ∧
    (printPdf noAddrEnv noAddrPrinter "pdf64" 0 true 10 300).1.page_results =
      some ((List.range 3).map (fun n =>
        { page := n + 1, success := false,
          error := some "Printer address not specified" })) ∧
    (printPdf noAddrEnv noAddrPrinter "pdf64" 0 true 10 300).1.pages_failed = some 3 :=
  C10_missing_address noAddrEnv noAddrPrinter "img64" "pdf64" 0 true 10 300 3 okImg
    rfl rfl rfl rfl (by decide) (fun n _ => ⟨okImg, rfl⟩)
